import Mathlib

/-!
Verification development for the frame-sequence-to-video writer
(`src/openpose/filestream/videoSaver.cpp`).  The C++ implementation is
shallowly embedded: the pimpl state becomes an explicit record, each
member function becomes a pure function returning the updated state
together with its observable effects, and every `op::error` call becomes
an explicit error message.  External collaborators (the image persister,
the OpenCV `cv::VideoWriter`, and `system`) are modelled through their
observable effects and boolean/exit-code environments.  The Linux/macOS
build is modelled (the `_WIN32`-only check is compiled out there).
-/

/-- Embedding of `op::Point<int>` (only `x`/`y` are used by the writer). -/
structure Point where
  x : Int
  y : Int
deriving DecidableEq, Repr

/-- Embedding of a `cv::Mat` restricted to the data the writer inspects:
its column and row counts. -/
structure CvMat where
  cols : Nat
  rows : Nat
deriving DecidableEq, Repr

/-- Embedding of `cv::Mat::empty()`: a matrix with no pixels. -/
def CvMat.isEmpty (m : CvMat) : Bool :=
  m.cols == 0 || m.rows == 0

/-- Embedding of the `op::ImageSaver` collaborator handle created on the
first frame of an FFmpeg session (folder it is bound to, image format). -/
structure ImageSaver where
  folder : String
  format : String
deriving DecidableEq, Repr

/-- Observable effect of one accepted `write` call: either the composed
image was handed to the image persister under a chosen file name
(FFmpeg strategy) or it was handed to the open `cv::VideoWriter`
(OpenCV strategy). -/
inductive WriteEffect where
  | savedImage (folder : String) (image : CvMat) (fileName : String)
  | encodedFrame (image : CvMat)
deriving DecidableEq, Repr

/-- Embedding of `VideoSaver::ImplVideoSaver`, the pimpl state of the
session.  `mVideoWriterOpened` stands for `mVideoWriter.isOpened()` (the
only fact about the `cv::VideoWriter` collaborator the code consumes),
and `upImageSaver` mirrors the unique pointer to the image persister. -/
structure ImplVideoSaver where
  mVideoSaverPath : String
  mCvFourcc : Int
  mFps : Rat
  mAddAudioFromThisVideo : String
  mUseFfmpeg : Bool
  mCvSize : Point
  mVideoStarted : Bool
  mImageSaverCounter : Nat
  mVideoWriterOpened : Bool
  upImageSaver : Option ImageSaver
  mTempImageFolder : String
deriving DecidableEq, Repr

/-- Result of one `write` call: the (possibly mutated) session state, the
disk/encoder effects that happened before any exception, and the message
of the `op::error` exception if one was raised. -/
structure WriteResult where
  newState : ImplVideoSaver
  effects : List WriteEffect
  errorMsg : Option String
deriving DecidableEq, Repr

/-- The ASCII dot character, used to locate the file extension. -/
def dotChar : Char := Char.ofNat 46

/-- Modelled from the spec: `op::toLower` (string utility collaborator,
not part of the embedded source file) lowercases every character. -/
def toLower (s : String) : String :=
  String.mk (s.data.map Char.toLower)

/-- Modelled from the spec: `op::getFileExtension` (filesystem utility
collaborator, not part of the embedded source file) returns the text
after the final dot of the path, or the empty string when the path has
no dot. -/
def getFileExtension (path : String) : String :=
  let revChars := path.data.reverse
  if revChars.contains dotChar then
    String.mk (revChars.takeWhile (fun c => c != dotChar)).reverse
  else
    String.mk []

/-- Modelled from the spec: `op::getFullFilePathNoExtension` (filesystem
utility collaborator, not part of the embedded source file) returns the
path with its final dot-extension removed. -/
def getFullFilePathNoExtension (path : String) : String :=
  let ext := getFileExtension path
  if ext.data.isEmpty then path
  else String.mk (path.data.take (path.data.length - (ext.data.length + 1)))

/-- Embedding of the fixed non-guessable suffix token `op::RANDOM_TEXT`. -/
def RANDOM_TEXT : String := "_r8904530ijyiopf9034jiop4g90j0yh795640h38j"

/-- Decimal digit characters of `n`, exactly `w` of them, most
significant first, zero-padded (helper for `toFixedLengthString`). -/
def padDigitChars : Nat → Nat → List Char
  | 0, _ => []
  | k + 1, n => Nat.digitChar (n / 10 ^ k % 10) :: padDigitChars k n

/-- Modelled from the spec: `op::toFixedLengthString` (string utility
collaborator, not part of the embedded source file) renders `n` as a
fixed-width, zero-padded, lexicographically sortable decimal string of
width `w` (faithful for every `n < 10 ^ w`). -/
def toFixedLengthString (n : Nat) (w : Nat) : String :=
  String.mk (padDigitChars w n)

/-- Decimal rendering of the configured frame rate used when the FFmpeg
command lines are assembled (the exact `std::to_string` double
formatting is immaterial to the claims: the command text is treated
symbolically). -/
def fpsToString (fps : Rat) : String :=
  if fps.den == 1 then toString fps.num
  else toString fps.num ++ String.mk [Char.ofNat 47] ++ toString fps.den

/-- Image format handed to the image persister on session start. -/
def jpgFormat : String := "jpg"

/-- The compressed-container extension that selects the FFmpeg strategy. -/
def mp4Ext : String := "mp4"

/-- Error message of the frame-rate sanity check in the constructor. -/
def fpsErrorMsg : String := "Desired fps (frame rate) to save the video is <= 0."

/-- Error message raised when MP4 output is requested but FFmpeg is missing. -/
def ffmpegMissingMsg : String :=
  "In order to save the video in MP4 format, FFmpeg must be installed on your system."
  ++ " Please, use an `avi` output format (e.g., `--write_video output.avi`) or install FFmpeg"
  ++ " by running `sudo apt-get install ffmpeg` (Ubuntu) or an analogous command."

/-- Error message raised when audio is requested without an MP4 destination. -/
def audioRequiresMp4Msg : String :=
  "In order to save the video with audio, it must be in MP4 format. So either 1) do not set"
  ++ " `--write_video_audio` or 2) make sure `--write_video` finishes in `.mp4`."

/-- Error message of the empty-frame sanity checks in `write`. -/
def emptyImageMsg : String := "The image(s) to be saved cannot be empty."

/-- Error message of the composed-size sanity check in `write`. -/
def sizeMismatchMsg : String :=
  "You selected to write video (`--write_video`), but the frames to be saved have different"
  ++ " resolution. You can only save frames with the same resolution."

/-- Error message of the `isOpened` sanity check in `write`. -/
def notOpenedMsg : String := "Video to write frames is not opened."

/-- Error message raised by `openVideo` when the `cv::VideoWriter` fails
to open (its diagnostic checklist mentions the destination path). -/
def openVideoErrorMessage (videoSaverPath : String) : String :=
  "Video to write frames could not be opened as `" ++ videoSaverPath
  ++ "`. Please, check that:"
  ++ "\n\t1. The path ends in `.avi`.\n\t2. The parent folder exists.\n\t3. OpenCV is properly"
  ++ " compiled with the FFmpeg codecs in order to save video."
  ++ "\n\t4. You are not saving in a protected folder. If you desire to save a video in a"
  ++ " protected folder, use sudo (Ubuntu) or execute the binary file as administrator (Windows)."

/-- Diagnostic standing for the exception `cv::hconcat` raises when the
supplied matrices do not share one row count (the exact OpenCV assertion
text is abstracted). -/
def hconcatErrorMsg : String :=
  "cv::hconcat requires all input matrices to have the same number of rows."

/-- Modelled from the spec: the `InputError` kind covers the empty frame
list, empty/zero-sized frame, and frame-size mismatch diagnostics. -/
def isInputError (msg : String) : Bool :=
  msg == emptyImageMsg || msg == sizeMismatchMsg

/-- Embedding of the `ImplVideoSaver` constructor (member-initialiser
list plus its body): derives the strategy flag from the lowercased file
extension and, for the FFmpeg strategy, derives (without creating) the
temporary image folder path. -/
def ImplVideoSaver.make (videoSaverPath : String) (cvFourcc : Int) (fps : Rat)
    (addAudioFromThisVideo : String) : ImplVideoSaver :=
  let useFfmpeg := toLower (getFileExtension videoSaverPath) == mp4Ext
  { mVideoSaverPath := videoSaverPath
    mCvFourcc := cvFourcc
    mFps := fps
    mAddAudioFromThisVideo := addAudioFromThisVideo
    mUseFfmpeg := useFfmpeg
    mCvSize := { x := 0, y := 0 }
    mVideoStarted := false
    mImageSaverCounter := 0
    mVideoWriterOpened := false
    upImageSaver := none
    mTempImageFolder :=
      if useFfmpeg then getFullFilePathNoExtension videoSaverPath ++ RANDOM_TEXT
      else String.mk [] }

/-- Embedding of the `VideoSaver` constructor on a non-Windows build:
builds the pimpl state, then runs the three sanity checks in source
order.  `ffmpegAvailable` models the exit status of `system("ffmpeg
--help")` being zero. -/
def VideoSaver.construct (videoSaverPath : String) (cvFourcc : Int) (fps : Rat)
    (addAudioFromThisVideo : String) (ffmpegAvailable : Bool) :
    Except String ImplVideoSaver :=
  let impl := ImplVideoSaver.make videoSaverPath cvFourcc fps addAudioFromThisVideo
  if fps ≤ 0 then Except.error fpsErrorMsg
  else if impl.mUseFfmpeg && !ffmpegAvailable then Except.error ffmpegMissingMsg
  else if impl.mAddAudioFromThisVideo != "" && !impl.mUseFfmpeg then
    Except.error audioRequiresMp4Msg
  else Except.ok impl

/-- Embedding of `VideoSaver::isOpened`. -/
def VideoSaver.isOpened (impl : ImplVideoSaver) : Bool :=
  if impl.mUseFfmpeg then impl.upImageSaver.isSome
  else impl.mVideoWriterOpened

/-- The composed image of one `write` call: `cv::hconcat` of all
supplied matrices when more than one is supplied (column counts add up,
row count of the first), the single matrix itself otherwise. -/
def concatMats (m0 : CvMat) (rest : List CvMat) : CvMat :=
  if rest.length > 0 then
    { cols := (m0 :: rest).foldl (fun acc m => acc + m.cols) 0, rows := m0.rows }
  else m0

/-- Embedding of `VideoSaver::write(const std::vector<cv::Mat>&)`.
`openVideoOk` models whether the `cv::VideoWriter` opened by `openVideo`
reports `isOpened()` (consulted only on the first call of an OpenCV
session).  Mutations made before an exception persist, exactly as the
heap-allocated pimpl state does in the source. -/
def VideoSaver.write (impl : ImplVideoSaver) (cvMats : List CvMat)
    (openVideoOk : Bool) : WriteResult :=
  match cvMats with
  | [] => { newState := impl, effects := [], errorMsg := some emptyImageMsg }
  | m0 :: rest =>
    if (m0 :: rest).any CvMat.isEmpty then
      { newState := impl, effects := [], errorMsg := some emptyImageMsg }
    else
      let firstCall := !impl.mVideoStarted
      let impl1 :=
        if firstCall then
          let sz : Point :=
            { x := (((m0 :: rest).length : Int)) * ((m0.cols : Int)), y := (m0.rows : Int) }
          if impl.mUseFfmpeg then
            { impl with
              mVideoStarted := true
              mCvSize := sz
              upImageSaver := some { folder := impl.mTempImageFolder, format := jpgFormat } }
          else
            { impl with
              mVideoStarted := true
              mCvSize := sz
              mVideoWriterOpened := openVideoOk }
        else impl
      if firstCall && !impl.mUseFfmpeg && !openVideoOk then
        { newState := { impl1 with mVideoWriterOpened := false }
          effects := []
          errorMsg := some (openVideoErrorMessage impl.mVideoSaverPath) }
      else if !(VideoSaver.isOpened impl1) then
        { newState := impl1, effects := [], errorMsg := some notOpenedMsg }
      else if !(rest.isEmpty) && !(rest.all (fun m => m.rows == m0.rows)) then
        { newState := impl1, effects := [], errorMsg := some hconcatErrorMsg }
      else
        let cvOutputData := concatMats m0 rest
        if impl1.mCvSize.x != (cvOutputData.cols : Int)
            || impl1.mCvSize.y != (cvOutputData.rows : Int) then
          { newState := impl1, effects := [], errorMsg := some sizeMismatchMsg }
        else if impl1.mUseFfmpeg then
          match impl1.upImageSaver with
          | some saver =>
            { newState := { impl1 with mImageSaverCounter := impl1.mImageSaverCounter + 1 }
              effects := [WriteEffect.savedImage saver.folder cvOutputData
                (toFixedLengthString impl1.mImageSaverCounter 12)]
              errorMsg := none }
          | none =>
            { newState := impl1, effects := [], errorMsg := some notOpenedMsg }
        else
          { newState := impl1
            effects := [WriteEffect.encodedFrame cvOutputData]
            errorMsg := none }

/-- Embedding of `VideoSaver::write(const cv::Mat&)`: delegates to the
vector overload with the singleton vector. -/
def VideoSaver.writeSingle (impl : ImplVideoSaver) (cvMat : CvMat)
    (openVideoOk : Bool) : WriteResult :=
  VideoSaver.write impl [cvMat] openVideoOk

/-- Result of a sequence of `write` calls (one list of frames per call):
the final session state, the concatenated effects, and whether every
call completed without raising. -/
structure WriteManyResult where
  finalState : ImplVideoSaver
  effects : List WriteEffect
  allOk : Bool
deriving DecidableEq, Repr

/-- Iterates `VideoSaver.write` over a list of calls, threading the
session state exactly as repeated calls on one session do. -/
def VideoSaver.writeMany (impl : ImplVideoSaver) (calls : List (List CvMat))
    (openVideoOk : Bool) : WriteManyResult :=
  match calls with
  | [] => { finalState := impl, effects := [], allOk := true }
  | c :: cs =>
    let r := VideoSaver.write impl c openVideoOk
    let rest := VideoSaver.writeMany r.newState cs openVideoOk
    { finalState := rest.finalState
      effects := r.effects ++ rest.effects
      allOk := r.errorMsg.isNone && rest.allOk }

/-- The file names under which the image persister was asked to store
frames, in the order the stores happened. -/
def savedNames (effects : List WriteEffect) : List String :=
  effects.filterMap (fun e =>
    match e with
    | WriteEffect.savedImage _ _ fileName => some fileName
    | WriteEffect.encodedFrame _ => none)

/-- Observable event of the teardown pipeline in `VideoSaver::~VideoSaver`:
an external command handed to `system`, or a failure report logged with
the attempted command text and the offending exit code. -/
inductive PipelineEvent where
  | ranImagesToVideo (cmd : String)
  | ranRemoveTempDir (cmd : String)
  | reportedMuxFailure (attemptedCommand : String) (exitCode : Int)
  | ranAudioMerge (cmd : String)
  | ranMoveTempOutput (cmd : String)
  | reportedAudioFailure (attemptedCommand : String) (exitCode : Int)
deriving DecidableEq, Repr

/-- The `imageToVideoCommand` string assembled in the destructor. -/
def imageToVideoCommand (impl : ImplVideoSaver) : String :=
  "ffmpeg -y -i " ++ impl.mTempImageFolder ++ "/%12d_rendered.jpg"
  ++ " -c:v libx264 -framerate " ++ fpsToString impl.mFps ++ " -pix_fmt yuv420p "
  ++ impl.mVideoSaverPath

/-- The temp-folder removal command run when the muxing step succeeds. -/
def removeTempCommand (impl : ImplVideoSaver) : String :=
  "rm -rf " ++ impl.mTempImageFolder

/-- The `tempOutput` path of the audio-merge step. -/
def audioTempOutput (impl : ImplVideoSaver) : String :=
  impl.mVideoSaverPath ++ RANDOM_TEXT ++ ".mp4"

/-- The `audioCommand` string assembled for the audio-merge step. -/
def audioMergeCommand (impl : ImplVideoSaver) : String :=
  "ffmpeg -y -i " ++ impl.mVideoSaverPath ++ " -i " ++ impl.mAddAudioFromThisVideo
  ++ " -codec copy -shortest " ++ audioTempOutput impl

/-- The command moving the audio-merge temp output onto the destination. -/
def moveTempOutputCommand (impl : ImplVideoSaver) : String :=
  "mv " ++ audioTempOutput impl ++ " " ++ impl.mVideoSaverPath

/-- The muxing block of the destructor: run `imageToVideoCommand`; when
it exits zero, run the temp-folder removal (`codeAnswer` is reassigned
to the removal's status); finally report a failure with the attempted
mux command iff the final `codeAnswer` is non-zero — exactly the control
flow of lines 113-130 of the source. -/
def teardownMuxPart (impl : ImplVideoSaver) (exitCode : String → Int) :
    List PipelineEvent :=
  let cmd1 := imageToVideoCommand impl
  let code1 := exitCode cmd1
  if code1 = 0 then
    let code2 := exitCode (removeTempCommand impl)
    [PipelineEvent.ranImagesToVideo cmd1,
     PipelineEvent.ranRemoveTempDir (removeTempCommand impl)]
    ++ (if code2 ≠ 0 then [PipelineEvent.reportedMuxFailure cmd1 code2] else [])
  else
    [PipelineEvent.ranImagesToVideo cmd1, PipelineEvent.reportedMuxFailure cmd1 code1]

/-- The audio-merge block of the destructor (lines 132-147 of the
source): guarded only by a configured audio source — its own
`codeAnswer` shadows the muxing one, so it runs regardless of the mux
outcome.  On a zero exit the temp output is moved onto the destination;
a failure is reported with the attempted audio command iff the final
shadowed `codeAnswer` is non-zero. -/
def teardownAudioPart (impl : ImplVideoSaver) (exitCode : String → Int) :
    List PipelineEvent :=
  if impl.mAddAudioFromThisVideo != "" then
    let cmd2 := audioMergeCommand impl
    let code2 := exitCode cmd2
    if code2 = 0 then
      let code3 := exitCode (moveTempOutputCommand impl)
      [PipelineEvent.ranAudioMerge cmd2,
       PipelineEvent.ranMoveTempOutput (moveTempOutputCommand impl)]
      ++ (if code3 ≠ 0 then [PipelineEvent.reportedAudioFailure cmd2 code3] else [])
    else
      [PipelineEvent.ranAudioMerge cmd2, PipelineEvent.reportedAudioFailure cmd2 code2]
  else []

/-- Embedding of `VideoSaver::~VideoSaver` as the ordered list of its
observable pipeline events.  `exitCode` is the environment giving the
exit status `system` returns for each command text.  The whole pipeline
runs iff the FFmpeg strategy was selected — nothing in the source guards
it on a frame having been written. -/
def VideoSaver.destructorEvents (impl : ImplVideoSaver)
    (exitCode : String → Int) : List PipelineEvent :=
  if impl.mUseFfmpeg then
    teardownMuxPart impl exitCode ++ teardownAudioPart impl exitCode
  else []

/-- Session states reachable through the public interface: a state a
successful construction produces, or the state any `write` call (failed
or not) leaves behind. -/
inductive Reachable : ImplVideoSaver → Prop where
  | constructed (videoSaverPath : String) (cvFourcc : Int) (fps : Rat)
      (addAudioFromThisVideo : String) (ffmpegAvailable : Bool) (impl : ImplVideoSaver) :
      VideoSaver.construct videoSaverPath cvFourcc fps addAudioFromThisVideo ffmpegAvailable
        = Except.ok impl → Reachable impl
  | stepWrite (impl : ImplVideoSaver) (cvMats : List CvMat) (openVideoOk : Bool) :
      Reachable impl → Reachable (VideoSaver.write impl cvMats openVideoOk).newState

/-- MP4 destination path used by the concrete test sessions. -/
def mp4Path : String := "output.mp4"

/-- Upper-case MP4 destination path. -/
def upperMp4Path : String := "output.MP4"

/-- Mixed-case MP4 destination path. -/
def mixedMp4Path : String := "output.Mp4"

/-- AVI destination path used by the concrete OpenCV-strategy sessions. -/
def aviPath : String := "output.avi"

/-- An audio source path for the audio-merge configuration. -/
def audioPath : String := "audio.mp4"

/-- The empty audio configuration (no audio merge requested). -/
def noAudio : String := ""

/-- A freshly constructed MP4 (FFmpeg-strategy) session. -/
def implMp4 : ImplVideoSaver := ImplVideoSaver.make mp4Path 0 30 noAudio

/-- A freshly constructed MP4 session configured with an audio source. -/
def implMp4Audio : ImplVideoSaver := ImplVideoSaver.make mp4Path 0 30 audioPath

/-- A freshly constructed AVI (OpenCV-strategy) session. -/
def implAvi : ImplVideoSaver := ImplVideoSaver.make aviPath 0 30 noAudio

/-- A 2-by-2 test frame. -/
def smallMat : CvMat := { cols := 2, rows := 2 }

/-- A 3-by-3 test frame (different composed size than `smallMat`). -/
def bigMat : CvMat := { cols := 3, rows := 3 }

/-- A 2-wide, 1-tall test frame. -/
def narrowMat : CvMat := { cols := 2, rows := 1 }

/-- A 4-wide, 1-tall test frame. -/
def wideMat : CvMat := { cols := 4, rows := 1 }

/-- A 3-wide, 2-tall test frame. -/
def matA : CvMat := { cols := 3, rows := 2 }

/-- A 1-wide, 2-tall test frame. -/
def matB : CvMat := { cols := 1, rows := 2 }

/-- A 5-wide, 2-tall test frame. -/
def matC : CvMat := { cols := 5, rows := 2 }

/-- Three single-frame `write` calls. -/
def threeCalls : List (List CvMat) := [[smallMat], [smallMat], [smallMat]]

/-- Exit-code environment where every external command fails with 1. -/
def exitOne : String → Int := fun _ => 1

/-- Exit-code environment where every external command succeeds. -/
def exitZero : String → Int := fun _ => 0

/-- An AVI session whose first `write` failed because the
`cv::VideoWriter` did not open: the started flag and frame size were
already recorded when `openVideo` raised. -/
def failedOpenSession : ImplVideoSaver :=
  (VideoSaver.write implAvi [smallMat] false).newState

/-- An MP4 session after one accepted 2-by-2 frame. -/
def openedMp4Session : ImplVideoSaver :=
  (VideoSaver.write implMp4 [smallMat] true).newState

/-- C9: `VideoSaver::write(const cv::Mat&)` is observationally
equivalent to the vector overload applied to the one-element list
holding that frame: same resulting state, same effects, same error
behaviour — the overload delegates to the vector overload with a
singleton vector. -/
theorem writeSingle_eq_write_singleton (impl : ImplVideoSaver) (cvMat : CvMat)
    (openVideoOk : Bool) :
    VideoSaver.writeSingle impl cvMat openVideoOk
      = VideoSaver.write impl [cvMat] openVideoOk := rfl

/-- C10: strategy selection is case-insensitive in the destination
extension — the FFmpeg (external-pipeline) strategy is chosen iff the
lowercased file extension equals `mp4`, so `.MP4` and `.Mp4`
destinations select it exactly as `.mp4` does, while `.avi` does not. -/
theorem useFfmpeg_iff_lower_ext_mp4 :
    (∀ (videoSaverPath : String) (cvFourcc : Int) (fps : Rat)
        (addAudioFromThisVideo : String),
        (ImplVideoSaver.make videoSaverPath cvFourcc fps addAudioFromThisVideo).mUseFfmpeg = true
          ↔ toLower (getFileExtension videoSaverPath) = mp4Ext)
    ∧ (ImplVideoSaver.make upperMp4Path 0 30 noAudio).mUseFfmpeg = true
    ∧ (ImplVideoSaver.make mixedMp4Path 0 30 noAudio).mUseFfmpeg = true
    ∧ (ImplVideoSaver.make mp4Path 0 30 noAudio).mUseFfmpeg = true
    ∧ (ImplVideoSaver.make aviPath 0 30 noAudio).mUseFfmpeg = false := by
  refine ⟨?_, by decide, by decide, by decide, by decide⟩
  intro videoSaverPath cvFourcc fps addAudioFromThisVideo
  simp [ImplVideoSaver.make]

/-- C5: construction raises exactly when the frame rate is non-positive,
or the MP4 strategy is selected while FFmpeg is unavailable, or an audio
source is supplied while the destination is not MP4; every other
configuration constructs successfully. -/
theorem construct_error_iff (videoSaverPath : String) (cvFourcc : Int) (fps : Rat)
    (addAudioFromThisVideo : String) (ffmpegAvailable : Bool) :
    (∃ msg, VideoSaver.construct videoSaverPath cvFourcc fps addAudioFromThisVideo
        ffmpegAvailable = Except.error msg)
      ↔ (fps ≤ 0
        ∨ (toLower (getFileExtension videoSaverPath) = mp4Ext ∧ ffmpegAvailable = false)
        ∨ (addAudioFromThisVideo ≠ ""
            ∧ toLower (getFileExtension videoSaverPath) ≠ mp4Ext)) := by
  unfold VideoSaver.construct
  by_cases h1 : fps ≤ 0
  · simp [h1]
  · by_cases h2 : toLower (getFileExtension videoSaverPath) = mp4Ext
    · cases h3 : ffmpegAvailable
      · simp [h1, h2, h3, ImplVideoSaver.make]
      · simp [h1, h2, h3, ImplVideoSaver.make]
    · by_cases h4 : addAudioFromThisVideo = ""
      · simp [h1, h2, h4, ImplVideoSaver.make]
      · simp [h1, h2, h4, ImplVideoSaver.make]

/-- C2 counterexample: an FFmpeg session on which `write` was never
called (still unstarted, zero frames buffered) does not tear down as a
no-op — the destructor still invokes the sequence-to-video muxing step
and reports its failure. -/
theorem teardown_no_writes_counterexample :
    implMp4.mVideoStarted = false
    ∧ implMp4.mImageSaverCounter = 0
    ∧ VideoSaver.destructorEvents implMp4 exitOne
        = [PipelineEvent.ranImagesToVideo (imageToVideoCommand implMp4),
           PipelineEvent.reportedMuxFailure (imageToVideoCommand implMp4) 1]
    ∧ VideoSaver.destructorEvents implMp4 exitOne ≠ [] := by decide

/-- C2 amended: for every FFmpeg session on which `write` was never
called, teardown is not a no-op — the sequence-to-video muxing step is
always invoked first (the source has no buffered-frame guard). -/
theorem teardown_always_runs_mux (impl : ImplVideoSaver) (exitCode : String → Int)
    (hf : impl.mUseFfmpeg = true) (_hns : impl.mVideoStarted = false) :
    (VideoSaver.destructorEvents impl exitCode).head?
      = some (PipelineEvent.ranImagesToVideo (imageToVideoCommand impl)) := by
  unfold VideoSaver.destructorEvents teardownMuxPart
  by_cases h1 : exitCode (imageToVideoCommand impl) = 0
  · simp [hf, h1]
  · simp [hf, h1]

/-- C2 amended witness: the fresh MP4 session concretely. -/
theorem teardown_always_runs_mux_witness :
    (VideoSaver.destructorEvents implMp4 exitOne).head?
      = some (PipelineEvent.ranImagesToVideo (imageToVideoCommand implMp4)) :=
  teardown_always_runs_mux implMp4 exitOne (by decide) (by decide)

/-- No event of the audio-merge block is a temp-folder removal. -/
theorem removeTempDir_not_in_audioPart (impl : ImplVideoSaver)
    (exitCode : String → Int) (c : String) :
    PipelineEvent.ranRemoveTempDir c ∉ teardownAudioPart impl exitCode := by
  unfold teardownAudioPart
  by_cases h1 : impl.mAddAudioFromThisVideo != ""
  · by_cases h2 : exitCode (audioMergeCommand impl) = 0
    · by_cases h3 : exitCode (moveTempOutputCommand impl) ≠ 0
      · simp [h1, h2, h3]
      · simp [h1, h2, h3]
    · simp [h1, h2]
  · simp [h1]

/-- C3 counterexample: an FFmpeg session configured with an audio source
whose muxing step fails still attempts the audio-merge step — the
concrete event trace runs the audio command right after reporting the
mux failure. -/
theorem audio_merge_after_mux_failure_counterexample :
    exitOne (imageToVideoCommand implMp4Audio) ≠ 0
    ∧ VideoSaver.destructorEvents implMp4Audio exitOne
        = [PipelineEvent.ranImagesToVideo (imageToVideoCommand implMp4Audio),
           PipelineEvent.reportedMuxFailure (imageToVideoCommand implMp4Audio) 1,
           PipelineEvent.ranAudioMerge (audioMergeCommand implMp4Audio),
           PipelineEvent.reportedAudioFailure (audioMergeCommand implMp4Audio) 1]
    ∧ PipelineEvent.ranAudioMerge (audioMergeCommand implMp4Audio)
        ∈ VideoSaver.destructorEvents implMp4Audio exitOne := by decide

/-- C3 amended: when the muxing step of an audio-configured FFmpeg
session exits non-zero, the failure is reported with the
sequence-to-video command text and the temporary directory is retained
(no removal command is issued), but the audio-merge step IS still
attempted — its guard only checks that an audio source is configured. -/
theorem mux_failure_still_attempts_audio (impl : ImplVideoSaver)
    (exitCode : String → Int) (hf : impl.mUseFfmpeg = true)
    (ha : impl.mAddAudioFromThisVideo ≠ "")
    (hm : exitCode (imageToVideoCommand impl) ≠ 0) :
    PipelineEvent.ranAudioMerge (audioMergeCommand impl)
        ∈ VideoSaver.destructorEvents impl exitCode
    ∧ PipelineEvent.reportedMuxFailure (imageToVideoCommand impl)
          (exitCode (imageToVideoCommand impl))
        ∈ VideoSaver.destructorEvents impl exitCode
    ∧ ∀ c, PipelineEvent.ranRemoveTempDir c ∉ VideoSaver.destructorEvents impl exitCode := by
  unfold VideoSaver.destructorEvents
  refine ⟨?_, ?_, ?_⟩
  · unfold teardownAudioPart
    by_cases h2 : exitCode (audioMergeCommand impl) = 0
    · simp [hf, ha, h2]
    · simp [hf, ha, h2]
  · unfold teardownMuxPart
    simp [hf, hm]
  · intro c
    intro hmem
    rw [if_pos hf, List.mem_append] at hmem
    rcases hmem with hmem | hmem
    · unfold teardownMuxPart at hmem
      rw [if_neg hm] at hmem
      simp at hmem
    · exact removeTempDir_not_in_audioPart impl exitCode c hmem

/-- C3 amended witness: concrete audio-configured session where every
external command fails. -/
theorem mux_failure_still_attempts_audio_witness :
    PipelineEvent.ranAudioMerge (audioMergeCommand implMp4Audio)
        ∈ VideoSaver.destructorEvents implMp4Audio exitOne
    ∧ PipelineEvent.reportedMuxFailure (imageToVideoCommand implMp4Audio) 1
        ∈ VideoSaver.destructorEvents implMp4Audio exitOne :=
  ⟨(mux_failure_still_attempts_audio implMp4Audio exitOne (by decide) (by decide)
      (by decide)).1,
   (mux_failure_still_attempts_audio implMp4Audio exitOne (by decide) (by decide)
      (by decide)).2.1⟩

/-- C4: at teardown of an FFmpeg session the temp-folder removal command
is issued iff the muxing step exits with status zero; on a non-zero exit
no removal happens anywhere in the pipeline and the failure is reported
together with the exact mux command that was attempted. -/
theorem temp_dir_removed_iff_mux_success (impl : ImplVideoSaver)
    (exitCode : String → Int) (hf : impl.mUseFfmpeg = true) :
    (PipelineEvent.ranRemoveTempDir (removeTempCommand impl)
        ∈ VideoSaver.destructorEvents impl exitCode
      ↔ exitCode (imageToVideoCommand impl) = 0)
    ∧ (exitCode (imageToVideoCommand impl) ≠ 0 →
        PipelineEvent.reportedMuxFailure (imageToVideoCommand impl)
            (exitCode (imageToVideoCommand impl))
          ∈ VideoSaver.destructorEvents impl exitCode
        ∧ ∀ c, PipelineEvent.ranRemoveTempDir c
            ∉ VideoSaver.destructorEvents impl exitCode) := by
  unfold VideoSaver.destructorEvents
  by_cases hm : exitCode (imageToVideoCommand impl) = 0
  · constructor
    · rw [iff_true_right hm, if_pos hf, List.mem_append]
      refine Or.inl ?_
      unfold teardownMuxPart
      by_cases h3 : exitCode (removeTempCommand impl) ≠ 0
      · simp [hm, h3]
      · simp [hm, h3]
    · intro hc
      exact absurd hm hc
  · constructor
    · constructor
      · intro hmem
        rw [if_pos hf, List.mem_append] at hmem
        rcases hmem with hmem | hmem
        · unfold teardownMuxPart at hmem
          rw [if_neg hm] at hmem
          simp at hmem
        · exact absurd hmem (removeTempDir_not_in_audioPart impl exitCode _)
      · intro hc
        exact absurd hc hm
    · intro _
      constructor
      · rw [if_pos hf, List.mem_append]
        refine Or.inl ?_
        unfold teardownMuxPart
        rw [if_neg hm]
        simp
      · intro c hmem
        rw [if_pos hf, List.mem_append] at hmem
        rcases hmem with hmem | hmem
        · unfold teardownMuxPart at hmem
          rw [if_neg hm] at hmem
          simp at hmem
        · exact removeTempDir_not_in_audioPart impl exitCode c hmem

/-- C4 witness: with a succeeding mux command the removal is issued, and
with a failing one the failure is reported with the mux command. -/
theorem temp_dir_removed_iff_mux_success_witness :
    PipelineEvent.ranRemoveTempDir (removeTempCommand implMp4)
        ∈ VideoSaver.destructorEvents implMp4 exitZero
    ∧ PipelineEvent.reportedMuxFailure (imageToVideoCommand implMp4) 1
        ∈ VideoSaver.destructorEvents implMp4 exitOne :=
  ⟨(temp_dir_removed_iff_mux_success implMp4 exitZero (by decide)).1.mpr rfl,
   ((temp_dir_removed_iff_mux_success implMp4 exitOne (by decide)).2 (by decide)).1⟩

/-- C1 counterexample: a first `write` with two non-empty frames of
widths 2 and 4 records a nominal width of 4 (frame count times width of
the first frame), not the sum 6 of the supplied widths. -/
theorem firstWrite_width_counterexample :
    (VideoSaver.write implMp4 [narrowMat, wideMat] true).newState.mVideoStarted = true
    ∧ (VideoSaver.write implMp4 [narrowMat, wideMat] true).newState.mCvSize.x = 4
    ∧ narrowMat.cols + wideMat.cols = 6
    ∧ ¬((VideoSaver.write implMp4 [narrowMat, wideMat] true).newState.mCvSize.x
          = ((narrowMat.cols + wideMat.cols : Nat) : Int)) := by decide

/-- C1 amended: the first `write` with a non-empty list of non-empty
frames marks the session started and records a nominal size whose width
is the FRAME COUNT TIMES THE WIDTH OF THE FIRST FRAME (not the sum of
all widths) and whose height is the first frame's height; a first call
supplying frames of differing widths is accepted exactly when the
composed width (the true sum) matches that recorded width and the
frames share the first frame's height. -/
theorem firstWrite_size_recorded (impl : ImplVideoSaver) (m0 : CvMat) (rest : List CvMat)
    (openVideoOk : Bool) (hstart : impl.mVideoStarted = false)
    (hne : ((m0 :: rest).any CvMat.isEmpty) = false) :
    (VideoSaver.write impl (m0 :: rest) openVideoOk).newState.mCvSize
        = { x := ((m0 :: rest).length : Int) * (m0.cols : Int), y := (m0.rows : Int) }
    ∧ (VideoSaver.write impl (m0 :: rest) openVideoOk).newState.mVideoStarted = true
    ∧ ((impl.mUseFfmpeg = true ∨ openVideoOk = true) →
        (rest.all (fun m => m.rows == m0.rows)) = true →
        ((concatMats m0 rest).cols : Int) = ((m0 :: rest).length : Int) * (m0.cols : Int) →
        (VideoSaver.write impl (m0 :: rest) openVideoOk).errorMsg = none) := by
  have hrows2 : (concatMats m0 rest).rows = m0.rows := by
    unfold concatMats
    split <;> rfl
  unfold VideoSaver.write
  by_cases hf : impl.mUseFfmpeg = true
  · refine ⟨?_, ?_, ?_⟩
    · simp [hne, hstart, hf, VideoSaver.isOpened]
      repeat' split
      all_goals simp
    · simp [hne, hstart, hf, VideoSaver.isOpened]
      repeat' split
      all_goals simp
    · intro hok hrows hwidth
      push_cast [List.length_cons] at hwidth
      simp [hne, hstart, hf, VideoSaver.isOpened, hrows, hrows2, hwidth]
  · have hf2 : impl.mUseFfmpeg = false := by
      cases hfv : impl.mUseFfmpeg
      · rfl
      · exact absurd hfv hf
    refine ⟨?_, ?_, ?_⟩
    · simp [hne, hstart, hf2, VideoSaver.isOpened]
      repeat' split
      all_goals simp
    · simp [hne, hstart, hf2, VideoSaver.isOpened]
      repeat' split
      all_goals simp
    · intro hok hrows hwidth
      have hok2 : openVideoOk = true := by
        rcases hok with hok | hok
        · exact absurd hok (by simp [hf2])
        · exact hok
      push_cast [List.length_cons] at hwidth
      simp [hne, hstart, hf2, hok2, VideoSaver.isOpened, hrows, hrows2, hwidth]

/-- C1 amended witness: a first call with frames of differing widths 3,
1 and 5 (same height) is accepted because 3 + 1 + 5 = 3 * 3, and the
recorded size is 9 by 2. -/
theorem firstWrite_size_recorded_witness :
    (VideoSaver.write implMp4 [matA, matB, matC] true).newState.mCvSize = { x := 9, y := 2 }
    ∧ (VideoSaver.write implMp4 [matA, matB, matC] true).newState.mVideoStarted = true
    ∧ (VideoSaver.write implMp4 [matA, matB, matC] true).errorMsg = none := by
  have h := firstWrite_size_recorded implMp4 matA [matB, matC] true (by decide) (by decide)
  refine ⟨?_, h.2.1, h.2.2 (Or.inl (by decide)) (by decide) (by decide)⟩
  rw [h.1]
  decide

/-- C6 counterexample: a session that is started (the first `write` of
this AVI session recorded size 2-by-2 but the encoder failed to open)
rejects a size-mismatched second `write` with the `not opened`
diagnostic, not with an input-error diagnostic as the claim states. -/
theorem mismatch_after_failed_open_counterexample :
    failedOpenSession.mVideoStarted = true
    ∧ failedOpenSession.mCvSize = { x := 2, y := 2 }
    ∧ ((concatMats bigMat []).cols : Int) ≠ failedOpenSession.mCvSize.x
    ∧ (VideoSaver.write failedOpenSession [bigMat] false).errorMsg = some notOpenedMsg
    ∧ isInputError notOpenedMsg = false := by decide

/-- C6 amended: on a started session whose backend is open (equivalently,
whose first `write` was accepted), any `write` whose composed size
differs from the recorded size fails with the size-mismatch input error
and leaves the whole session state (frame size included) unchanged with
no effects; likewise an empty frame list or a list containing an
empty/zero-sized frame fails with the empty-input error and changes
nothing, on any session.  (A started session whose backend failed to
open instead rejects every further `write` with the backend-not-opened
diagnostic, equally without corrupting state.) -/
theorem write_rejects_invalid_input (impl : ImplVideoSaver) (openVideoOk : Bool)
    (hstart : impl.mVideoStarted = true) (hopen : VideoSaver.isOpened impl = true) :
    (∀ (m0 : CvMat) (rest : List CvMat),
        ((m0 :: rest).any CvMat.isEmpty) = false →
        (rest.all (fun m => m.rows == m0.rows)) = true →
        (impl.mCvSize.x ≠ ((concatMats m0 rest).cols : Int)
          ∨ impl.mCvSize.y ≠ ((concatMats m0 rest).rows : Int)) →
        VideoSaver.write impl (m0 :: rest) openVideoOk
          = { newState := impl, effects := [], errorMsg := some sizeMismatchMsg })
    ∧ (∀ cvMats : List CvMat,
        (cvMats.isEmpty = true ∨ cvMats.any CvMat.isEmpty = true) →
        VideoSaver.write impl cvMats openVideoOk
          = { newState := impl, effects := [], errorMsg := some emptyImageMsg })
    ∧ isInputError sizeMismatchMsg = true
    ∧ isInputError emptyImageMsg = true := by
  refine ⟨?_, ?_, by decide, by decide⟩
  · intro m0 rest hne hrows hmis
    rcases hmis with h | h
    · simp [VideoSaver.write, hne, hstart, hopen, hrows, h]
    · simp [VideoSaver.write, hne, hstart, hopen, hrows, h]
  · intro cvMats hemp
    cases cvMats with
    | nil => rfl
    | cons m0 rest =>
      rcases hemp with h | h
      · simp at h
      · simp [VideoSaver.write, h]

/-- C6 amended witness: an MP4 session with one accepted 2-by-2 frame
rejects a 3-by-3 frame and the empty list, both without state change. -/
theorem write_rejects_invalid_input_witness :
    VideoSaver.write openedMp4Session [bigMat] true
        = { newState := openedMp4Session, effects := [], errorMsg := some sizeMismatchMsg }
    ∧ VideoSaver.write openedMp4Session [] true
        = { newState := openedMp4Session, effects := [], errorMsg := some emptyImageMsg } :=
  ⟨(write_rejects_invalid_input openedMp4Session true (by decide) (by decide)).1
      bigMat [] (by decide) (by decide) (Or.inl (by decide)),
   (write_rejects_invalid_input openedMp4Session true (by decide) (by decide)).2.1
      [] (Or.inl (by decide))⟩

/-- A successful construction returns exactly the state the pimpl
constructor built. -/
theorem construct_ok_eq (videoSaverPath : String) (cvFourcc : Int) (fps : Rat)
    (addAudioFromThisVideo : String) (ffmpegAvailable : Bool) (impl : ImplVideoSaver)
    (h : VideoSaver.construct videoSaverPath cvFourcc fps addAudioFromThisVideo ffmpegAvailable
        = Except.ok impl) :
    impl = ImplVideoSaver.make videoSaverPath cvFourcc fps addAudioFromThisVideo := by
  simp only [VideoSaver.construct] at h
  repeat' split at h
  · cases h
  · cases h
  · cases h
  · injection h with h2
    exact h2.symm

/-- Every `write` call preserves the strategy flag and the invariant
that, under the FFmpeg strategy, the image persister exists exactly when
the session has started. -/
theorem write_preserves_backend_inv (impl : ImplVideoSaver) (cvMats : List CvMat)
    (openVideoOk : Bool)
    (hInv : impl.mUseFfmpeg = true → impl.upImageSaver.isSome = impl.mVideoStarted) :
    (VideoSaver.write impl cvMats openVideoOk).newState.mUseFfmpeg = impl.mUseFfmpeg
    ∧ ((VideoSaver.write impl cvMats openVideoOk).newState.mUseFfmpeg = true →
        (VideoSaver.write impl cvMats openVideoOk).newState.upImageSaver.isSome
          = (VideoSaver.write impl cvMats openVideoOk).newState.mVideoStarted) := by
  cases cvMats with
  | nil => exact ⟨rfl, fun hf => hInv hf⟩
  | cons m0 rest =>
    cases hne : (m0 :: rest).any CvMat.isEmpty with
    | true =>
      constructor
      · simp [VideoSaver.write, hne]
      · intro hf
        simp [VideoSaver.write, hne] at hf ⊢
        exact hInv hf
    | false =>
      cases hs : impl.mVideoStarted with
      | true =>
        simp [VideoSaver.write, hne, hs, VideoSaver.isOpened]
        repeat' split
        all_goals simp_all
      | false =>
        cases hf : impl.mUseFfmpeg with
        | true =>
          simp [VideoSaver.write, hne, hs, hf, VideoSaver.isOpened]
          repeat' split
          all_goals simp_all
        | false =>
          cases ho : openVideoOk with
          | true =>
            simp [VideoSaver.write, hne, hs, hf, ho, VideoSaver.isOpened]
            repeat' split
            all_goals simp_all
          | false =>
            simp [VideoSaver.write, hne, hs, hf, ho, VideoSaver.isOpened]

/-- On every reachable FFmpeg-strategy state, the image persister exists
exactly when the session has started. -/
theorem reachable_backend_inv (impl : ImplVideoSaver) (h : Reachable impl) :
    impl.mUseFfmpeg = true → impl.upImageSaver.isSome = impl.mVideoStarted := by
  induction h with
  | constructed videoSaverPath cvFourcc fps addAudioFromThisVideo ffmpegAvailable impl2 hok =>
    have he := construct_ok_eq videoSaverPath cvFourcc fps addAudioFromThisVideo
      ffmpegAvailable impl2 hok
    subst he
    intro _
    rfl
  | stepWrite impl2 cvMats openVideoOk _ ih =>
    exact (write_preserves_backend_inv impl2 cvMats openVideoOk ih).2

/-- C8: on every reachable session state, `isOpened` is true iff the
selected backend is ready — under the FFmpeg strategy it is true exactly
when the image persister has been created, equivalently exactly when the
session has started; under the OpenCV strategy it returns the streaming
encoder handle's own open status. -/
theorem isOpened_iff_backend_ready (impl : ImplVideoSaver) (h : Reachable impl) :
    (impl.mUseFfmpeg = true →
        (VideoSaver.isOpened impl = true ↔ impl.upImageSaver.isSome = true)
        ∧ (VideoSaver.isOpened impl = true ↔ impl.mVideoStarted = true))
    ∧ (impl.mUseFfmpeg = false →
        VideoSaver.isOpened impl = impl.mVideoWriterOpened) := by
  have hinv := reachable_backend_inv impl h
  constructor
  · intro hf
    have h2 := hinv hf
    constructor
    · simp [VideoSaver.isOpened, hf]
    · simp [VideoSaver.isOpened, hf, h2]
  · intro hf
    simp [VideoSaver.isOpened, hf]

/-- C8 witness: the reachable MP4 session with one accepted frame is
open, and being open coincides with being started. -/
theorem isOpened_iff_backend_ready_witness :
    (VideoSaver.isOpened openedMp4Session = true
        ↔ openedMp4Session.mVideoStarted = true)
    ∧ VideoSaver.isOpened openedMp4Session = true := by
  have hr : Reachable openedMp4Session :=
    Reachable.stepWrite implMp4 [smallMat] true
      (Reachable.constructed mp4Path 0 30 noAudio true implMp4 (by rfl))
  exact ⟨((isOpened_iff_backend_ready openedMp4Session hr).1 (by decide)).2, by decide⟩

/-- `Nat.digitChar` is strictly increasing on decimal digits. -/
theorem digitChar_strictMono : ∀ e, e < 10 → ∀ d, d < e →
    Nat.digitChar d < Nat.digitChar e := by decide

/-- The `w` low-order digits only depend on the value modulo `10 ^ w`. -/
theorem padDigitChars_mod (k : Nat) (n : Nat) :
    padDigitChars k (n % 10 ^ k) = padDigitChars k n := by
  induction k generalizing n with
  | zero => rfl
  | succ k ih =>
    unfold padDigitChars
    congr 1
    · congr 1
      rw [Nat.div_mod_eq_mod_mul_div, Nat.div_mod_eq_mod_mul_div, ← pow_succ,
        Nat.mod_mod_of_dvd n (dvd_refl (10 ^ (k + 1)))]
    · rw [← ih (n % 10 ^ (k + 1)), ← ih n,
        Nat.mod_mod_of_dvd n (pow_dvd_pow 10 (Nat.le_succ k))]

/-- Zero-padded fixed-width digit strings compare lexicographically the
way the underlying numbers compare. -/
theorem padDigitChars_lex (w : Nat) : ∀ i j : Nat, i < j → j < 10 ^ w →
    List.Lex (fun a b => a < b) (padDigitChars w i) (padDigitChars w j) := by
  induction w with
  | zero =>
    intro i j hij hj
    simp [pow_zero] at hj
    omega
  | succ w ih =>
    intro i j hij hj
    have hdij : i / 10 ^ w ≤ j / 10 ^ w := Nat.div_le_div_right (le_of_lt hij)
    have hjd : j / 10 ^ w < 10 := by
      rw [Nat.div_lt_iff_lt_mul (pow_pos (by norm_num) w)]
      calc j < 10 ^ (w + 1) := hj
        _ = 10 * 10 ^ w := by ring
    have hid : i / 10 ^ w < 10 := lt_of_le_of_lt hdij hjd
    unfold padDigitChars
    rcases lt_or_eq_of_le hdij with hlt | heq
    · apply List.Lex.rel
      rw [Nat.mod_eq_of_lt hid, Nat.mod_eq_of_lt hjd]
      exact digitChar_strictMono (j / 10 ^ w) hjd (i / 10 ^ w) hlt
    · have hde : i / 10 ^ w % 10 = j / 10 ^ w % 10 := by rw [heq]
      rw [hde]
      apply List.Lex.cons
      rw [← padDigitChars_mod w i, ← padDigitChars_mod w j]
      apply ih
      · have h1 := Nat.div_add_mod i (10 ^ w)
        have h2 := Nat.div_add_mod j (10 ^ w)
        rw [heq] at h1
        omega
      · exact Nat.mod_lt j (pow_pos (by norm_num) w)

/-- The fixed-width file-name suffixes are strictly increasing in the
string order, i.e. lexicographically sortable in counter order. -/
theorem toFixedLengthString_mono (i j : Nat) (hij : i < j) (hj : j < 10 ^ 12) :
    toFixedLengthString i 12 < toFixedLengthString j 12 := by
  rw [String.lt_iff_toList_lt]
  show List.Lex (fun a b => a < b) (padDigitChars 12 i) (padDigitChars 12 j)
  exact padDigitChars_lex 12 i j hij hj

/-- An accepted (non-raising) `write` on an FFmpeg session persists the
composed image under the current counter rendered at width 12 and
increments the counter by exactly one. -/
theorem write_ffmpeg_success (impl : ImplVideoSaver) (cvMats : List CvMat)
    (openVideoOk : Bool) (hf : impl.mUseFfmpeg = true)
    (hok : (VideoSaver.write impl cvMats openVideoOk).errorMsg = none) :
    (VideoSaver.write impl cvMats openVideoOk).newState.mImageSaverCounter
        = impl.mImageSaverCounter + 1
    ∧ (VideoSaver.write impl cvMats openVideoOk).newState.mUseFfmpeg = true
    ∧ savedNames (VideoSaver.write impl cvMats openVideoOk).effects
        = [toFixedLengthString impl.mImageSaverCounter 12] := by
  cases cvMats with
  | nil => simp [VideoSaver.write] at hok
  | cons m0 rest =>
    cases hne : (m0 :: rest).any CvMat.isEmpty with
    | true => simp [VideoSaver.write, hne] at hok
    | false =>
      cases hs : impl.mVideoStarted with
      | false =>
        simp [VideoSaver.write, hne, hs, hf, VideoSaver.isOpened] at hok ⊢
        repeat' split at hok
        all_goals try simp at hok
        rename_i h1 h2
        simp only [if_neg h1, if_neg h2]
        simp [savedNames]
      | true =>
        cases hsv : impl.upImageSaver with
        | none =>
          simp [VideoSaver.write, hne, hs, hf, hsv, VideoSaver.isOpened] at hok
        | some saver =>
          simp [VideoSaver.write, hne, hs, hf, hsv, VideoSaver.isOpened] at hok ⊢
          repeat' split at hok
          all_goals try simp at hok
          rename_i h1 h2
          simp only [if_neg h1, if_neg h2]
          simp [savedNames]

/-- `savedNames` distributes over concatenation of effect logs. -/
theorem savedNames_append (a b : List WriteEffect) :
    savedNames (a ++ b) = savedNames a ++ savedNames b := by
  unfold savedNames
  exact List.filterMap_append a b _

/-- A run of accepted `write` calls on an FFmpeg session advances the
counter by the number of calls and persists images under the
consecutive counter values, rendered at width 12, in call order. -/
theorem writeMany_ffmpeg_shape (calls : List (List CvMat)) : ∀ (impl : ImplVideoSaver)
    (openVideoOk : Bool), impl.mUseFfmpeg = true →
    (VideoSaver.writeMany impl calls openVideoOk).allOk = true →
    (VideoSaver.writeMany impl calls openVideoOk).finalState.mImageSaverCounter
        = impl.mImageSaverCounter + calls.length
    ∧ (VideoSaver.writeMany impl calls openVideoOk).finalState.mUseFfmpeg = true
    ∧ savedNames (VideoSaver.writeMany impl calls openVideoOk).effects
        = (List.range calls.length).map
            (fun i => toFixedLengthString (impl.mImageSaverCounter + i) 12) := by
  induction calls with
  | nil =>
    intro impl openVideoOk hf _
    simp [VideoSaver.writeMany, savedNames]
    exact hf
  | cons c cs ih =>
    intro impl openVideoOk hf hok
    simp only [VideoSaver.writeMany, Bool.and_eq_true, Option.isNone_iff_eq_none] at hok
    obtain ⟨h1, h2⟩ := hok
    obtain ⟨hc1, hc2, hc3⟩ := write_ffmpeg_success impl c openVideoOk hf h1
    obtain ⟨ih1, ih2, ih3⟩ :=
      ih (VideoSaver.write impl c openVideoOk).newState openVideoOk hc2 h2
    refine ⟨?_, ?_, ?_⟩
    · simp only [VideoSaver.writeMany]
      rw [ih1, hc1, List.length_cons]
      omega
    · simp only [VideoSaver.writeMany]
      rw [ih2]
    · simp only [VideoSaver.writeMany]
      rw [savedNames_append, hc3, ih3, hc1, List.length_cons, List.range_succ_eq_map]
      simp only [List.map_cons, List.map_map, List.singleton_append, Nat.add_zero]
      congr 1
      apply List.map_congr_left
      intro i _
      simp [Function.comp]
      congr 1
      omega

/-- C7: on an FFmpeg session with counter 0, a run of N accepted `write`
calls leaves the counter equal to N, persists the composed images under
the fixed-width zero-padded renderings of 0, 1, ..., N-1 in submission
order, and those file names are strictly increasing lexicographically,
so the buffered images replay in submission order under the teardown
pattern. -/
theorem ffmpeg_counter_and_names (impl : ImplVideoSaver) (calls : List (List CvMat))
    (openVideoOk : Bool) (hf : impl.mUseFfmpeg = true) (h0 : impl.mImageSaverCounter = 0)
    (hok : (VideoSaver.writeMany impl calls openVideoOk).allOk = true)
    (hlen : calls.length ≤ 10 ^ 12) :
    (VideoSaver.writeMany impl calls openVideoOk).finalState.mImageSaverCounter = calls.length
    ∧ savedNames (VideoSaver.writeMany impl calls openVideoOk).effects
        = (List.range calls.length).map (fun i => toFixedLengthString i 12)
    ∧ List.Pairwise (fun a b => a < b)
        (savedNames (VideoSaver.writeMany impl calls openVideoOk).effects) := by
  obtain ⟨h1, h2, h3⟩ := writeMany_ffmpeg_shape calls impl openVideoOk hf hok
  rw [h0] at h1 h3
  simp only [Nat.zero_add] at h1 h3
  refine ⟨h1, h3, ?_⟩
  rw [h3, List.pairwise_map]
  refine List.Pairwise.imp_of_mem ?_ (List.pairwise_lt_range calls.length)
  intro a b _ hb hab
  exact toFixedLengthString_mono a b hab
    (lt_of_lt_of_le (List.mem_range.mp hb) hlen)

/-- C7 witness: three accepted single-frame writes on the fresh MP4
session leave the counter at 3 and persist names 000000000000,
000000000001, 000000000002 in order. -/
theorem ffmpeg_counter_and_names_witness :
    (VideoSaver.writeMany implMp4 threeCalls true).finalState.mImageSaverCounter = 3
    ∧ savedNames (VideoSaver.writeMany implMp4 threeCalls true).effects
        = (List.range 3).map (fun i => toFixedLengthString i 12) := by
  have h := ffmpeg_counter_and_names implMp4 threeCalls true (by decide) (by decide)
    (by decide) (by decide)
  exact ⟨h.1, h.2.1⟩
